import Mathlib

/-!
Shallow embedding of `cmd/hzn/control.go` from swisscom/horizon: the control
server's startup sequence (`(*controlServer).Run`), the credential bootstrap
against the secrets backend, the hourly token-renewal and certificate-refresh
loops, the protocol-multiplexing request router, and the self-signed fallback
certificate generator (`snakeOilCert`).

External effects (environment variables, the vault client, the database, AWS,
the TLS manager, the file system) are modelled as an `Env` record of call
results; `runStartup` threads them through the exact branch structure of
`Run`, ending at the point where `ListenAndServeTLS` would block.
-/

namespace Horizon

/-- Go byte slices, as lists of bytes. -/
abbrev Bytes := List Nat

/-- A handshake-ready certificate returned by `tlsmgr.Certificate()` (opaque here). -/
structure TLSCert where
  bytes : Bytes
deriving DecidableEq

/-- The hub TLS material installed on the control server by `s.SetHubTLS(cert, key, hubDomain)`.
`cert`/`key` are `Option` because the Go locals are nil-initialised byte slices. -/
structure HubMaterial where
  cert : Option Bytes
  key : Option Bytes
  domain : String
deriving DecidableEq

/-- The secret returned by the vault kubernetes login (`sec.Auth.ClientToken`, `sec.Auth.Accessor`). -/
structure LoginSecret where
  clientToken : String
  accessor : String
deriving DecidableEq

/-- Nanoseconds, as Go `time.Duration` counts them. -/
def hourNs : Nat := 3600 * 1000000000

def minuteNs : Nat := 60 * 1000000000

/-- Go's `5 * 365 * 24 * time.Hour`, the snake-oil validity window. -/
def fiveYearsNs : Nat := 5 * 365 * 24 * hourNs

/-- Go's `x509.KeyUsageDigitalSignature` bit. -/
def x509KeyUsageDigitalSignature : Nat := 1

/-- The observable fields of the certificate built by `snakeOilCert`. -/
structure SnakeOilCert where
  commonName : String
  country : List String
  organization : List String
  serialNumber : Nat
  notBefore : Nat
  notAfter : Nat
  keyUsage : Nat
  keyBits : Nat
deriving DecidableEq

/-- Function `snakeOilCert(commonName)` from control.go.  `serialEntropy` models the bytes
drawn from `rand.Reader` by `rand.Int` (whose result is the draw reduced into
`[0, 2^128)`); `now1` and `now2` model the two successive `time.Now()` calls the
function makes: line 358 (`notBefore := time.Now()`, from which `notAfter` is
computed) and line 365 (`NotBefore: time.Now()` inside the template literal). -/
def snakeOilCert (commonName : String) (serialEntropy now1 now2 : Nat) : SnakeOilCert :=
  let keyBits := 4096
  let serialNumberLimit := 2 ^ 128
  let serialNumber := serialEntropy % serialNumberLimit
  let notBefore := now1
  let notAfter := notBefore + fiveYearsNs
  { commonName := commonName
    country := ["CH"]
    organization := ["SnakeOil"]
    serialNumber := serialNumber
    notBefore := now2
    notAfter := notAfter
    keyUsage := x509KeyUsageDigitalSignature
    keyBits := keyBits }

/-- The literal `"application/grpc"` as Go bytes (characters). -/
def grpcContentTypePre : List Char := "application/grpc".data

/-- The routing decision of the listener handler (control.go lines 294-301):
`r.ProtoMajor == 2 && strings.HasPrefix(r.Header.Get("Content-Type"), "application/grpc")`.
Go's `strings.HasPrefix(s, p)` is `len(s) >= len(p) && s[0:len(p)] == p`. -/
def routeIsRPC (protoMajor : Nat) (contentType : List Char) : Bool :=
  protoMajor == 2 &&
    (decide (grpcContentTypePre.length ≤ contentType.length) &&
      contentType.take grpcContentTypePre.length == grpcContentTypePre)

/-- The startup phase at which a `log.Fatal` occurred. Listed in program order. -/
inductive Phase where
  | newVaultClient
  | readToken
  | loginErr
  | loginEmpty
  | dbUrl
  | dbOpen
  | s3Bucket
  | awsSession
  | hubDomain
  | newTLSManager
  | zoneId
  | route53
  | registerToken
  | opsToken
  | hubMaterial
  | lockManager
  | newServer
  | certificate
deriving DecidableEq

/-- A `log.Fatal` outcome: the phase it happened in and the logged message. -/
structure Fatal where
  phase : Phase
  msg : String
deriving DecidableEq

/-- Result of the credential-bootstrap block (control.go lines 71-109). -/
structure BootstrapResult where
  token : String
  loginAttempted : Bool
  renewStarted : Bool
deriving DecidableEq

/-- The environment a `Run` invocation executes against: environment variables
plus the results of every external call the startup sequence makes. -/
structure Env where
  getenv : String → String
  /-- Whether `api.NewClient` succeeds. -/
  newVaultClientOk : Bool
  /-- The ambient `vaultClient.Token()` at startup (empty when unset). -/
  ambientToken : String
  /-- Whether `os.Open("/var/run/secrets/kubernetes.io/serviceaccount/token")` succeeds. -/
  tokenFileOpen : Bool
  /-- Outcome of `ioutil.ReadAll(f)` for the identity-token file. -/
  tokenFileRead : Except String Bytes
  /-- Outcome of `vaultClient.Logical().Write("auth/kubernetes/login", ...)`: error, or the
  returned secret (`none` models Go's `sec == nil`). -/
  loginResult : Except String (Option LoginSecret)
  /-- Whether `gorm.Open("postgres", url)` succeeds. -/
  dbOpenOk : Bool
  /-- Whether `session.NewSession(...)` succeeds. -/
  awsSessionOk : Bool
  /-- Whether `tlsmanage.NewManager(...)` succeeds. -/
  newManagerOk : Bool
  /-- Whether `tlsmgr.SetupRoute53(sess, zoneId)` succeeds. -/
  route53Ok : Bool
  /-- Outcome of `tlsmgr.HubMaterial(ctx)`: error, or (cert, key). -/
  hubMaterial : Except String (Bytes × Bytes)
  /-- Whether `control.NewConsulLockManager(ctx)` succeeds. -/
  lockManagerOk : Bool
  /-- Whether `control.NewServer(...)` succeeds. -/
  newServerOk : Bool
  /-- Outcome of `tlsmgr.Certificate()`. -/
  certificateResult : Except String TLSCert
  /-- Entropy consumed from `rand.Reader` by `snakeOilCert`. -/
  serialEntropy : Nat
  /-- First `time.Now()` read inside `snakeOilCert`. -/
  now1 : Nat
  /-- Second `time.Now()` read inside `snakeOilCert`. -/
  now2 : Nat

/-- Line 126: `useAWS := os.Getenv("USE_AWS") != "0"`. -/
def useAWS (env : Env) : Bool := env.getenv "USE_AWS" != "0"

/-- Line 142: `useTLSManager := os.Getenv("USE_TLS_MANAGER") != "0"`. -/
def useTLSManager (env : Env) : Bool := env.getenv "USE_TLS_MANAGER" != "0"

/-- Lines 186-189: `port := os.Getenv("PORT"); if port == "" { port = "24402" }`. -/
def portOf (env : Env) : String :=
  if env.getenv "PORT" = "" then "24402" else env.getenv "PORT"

/-- Line 137: `domain := os.Getenv("HUB_DOMAIN")`. -/
def domainOf (env : Env) : String := env.getenv "HUB_DOMAIN"

/-- Lines 240-243: `hubDomain := domain; if strings.HasPrefix(hubDomain, "*.") { hubDomain = hubDomain[2:] }`
(lines 240-243). -/
def hubDomainOf (env : Env) : String :=
  if (domainOf env).startsWith "*." then (domainOf env).drop 2 else domainOf env

/-- The credential-bootstrap block (lines 71-109): when no ambient token is set,
try to open the workload-identity token file; if it opens, read it (read failure
is fatal) and exchange it for a token via the kubernetes login (an error or a
nil secret is fatal); on success install the token and start the renewal loop.
If the file does not open, the whole block is skipped. -/
def bootstrapToken (env : Env) : Except Fatal BootstrapResult :=
  if env.ambientToken = "" then
    if env.tokenFileOpen = false then
      .ok ⟨env.ambientToken, false, false⟩
    else
      match env.tokenFileRead with
      | .error e => .error ⟨.readToken, e⟩
      | .ok _data =>
        match env.loginResult with
        | .error e => .error ⟨.loginErr, e⟩
        | .ok none => .error ⟨.loginEmpty, "unable to login to get token"⟩
        | .ok (some sec) => .ok ⟨sec.clientToken, true, true⟩
  else
    .ok ⟨env.ambientToken, false, false⟩

/-- Modelled from the spec: `tlsmanage.Manager.RegisterRenewHandler` (pkg/tlsmanage,
whose source is not part of this tree) registers a certificate-renewal job handler
in the work-queue registry. The spec gives registration no failure path, so it is
modelled as a total operation on the handler registry. -/
def registerRenewHandler (reg : List String) : List String :=
  "renew-hub-cert" :: reg

/-- Lines 195-203: `var cert, key []byte = nil; if tlsmgr != nil { cert, key, err =
tlsmgr.HubMaterial(ctx); if err != nil { log.Fatal(err) } }`. -/
def fetchHubMaterial (env : Env) : Except Fatal (Option (Bytes × Bytes)) :=
  if useTLSManager env then
    match env.hubMaterial with
    | .error e => .error ⟨.hubMaterial, e⟩
    | .ok m => .ok (some m)
  else
    .ok none

/-- Lines 245-267: when the TLS manager is configured, install the fetched hub
material (`s.SetHubTLS(cert, key, hubDomain)`), start the hourly refresh loop, and
materialise the handshake certificate (`tlsmgr.Certificate()`, fatal on error).
Returns (store contents, refresh loop started, tlsCert). -/
def tlsSetup (env : Env) (certKey : Option (Bytes × Bytes)) :
    Except Fatal (Option HubMaterial × Bool × Option TLSCert) :=
  if useTLSManager env then
    match env.certificateResult with
    | .error e => .error ⟨.certificate, e⟩
    | .ok tc =>
      .ok (some ⟨certKey.map Prod.fst, certKey.map Prod.snd, hubDomainOf env⟩, true, some tc)
  else
    .ok (none, false, none)

/-- The certificate the listener's `tls.Config` is built from (lines 275-288):
the managed certificate when `tlsmgr != nil && tlsCert != nil`, otherwise the
generated self-signed one. -/
inductive CertSource where
  | managed (c : TLSCert)
  | selfSigned (c : SnakeOilCert)
deriving DecidableEq

/-- The state of the process at the moment `hs.ListenAndServeTLS("", "")` is
entered: the constructed listener plus the background loops started on the way. -/
structure ServerState where
  certSource : CertSource
  /-- Go field `Addr: ":" + port`. -/
  addr : String
  /-- Go field `IdleTimeout: 2 * time.Minute`, in nanoseconds. -/
  idleTimeoutNs : Nat
  /-- The hub TLS material installed on the control server, if any. -/
  store : Option HubMaterial
  refreshLoopStarted : Bool
  renewLoopStarted : Bool
  /-- The vault token in effect after bootstrap. -/
  vaultToken : String
  /-- Registered work-queue handler names. -/
  handlers : List String
deriving DecidableEq

/-- Lines 195-327 after the configuration checks: hub-material fetch, lock
manager, control server, TLS setup, listener construction, renewal-handler
registration, worker launch — up to the accept loop. -/
def afterConfig (env : Env) (b : BootstrapResult) : Except Fatal ServerState :=
  match fetchHubMaterial env with
  | .error f => .error f
  | .ok certKey =>
    if env.lockManagerOk = false then .error ⟨.lockManager, "consul lock manager error"⟩
    else if env.newServerOk = false then .error ⟨.newServer, "control server error"⟩
    else
      match tlsSetup env certKey with
      | .error f => .error f
      | .ok (store, refreshStarted, tlsCert) =>
        let certSource :=
          match useTLSManager env, tlsCert with
          | true, some tc => CertSource.managed tc
          | _, _ =>
            CertSource.selfSigned
              (snakeOilCert "127.0.0.1:24402" env.serialEntropy env.now1 env.now2)
        .ok { certSource := certSource
              addr := ":" ++ portOf env
              idleTimeoutNs := 2 * minuteNs
              store := store
              refreshLoopStarted := refreshStarted
              renewLoopStarted := b.renewStarted
              vaultToken := b.token
              handlers := registerRenewHandler ["cleanup-activity-log"] }

/-- Method `(*controlServer).Run` (control.go lines 47-327) up to the point where the
accept loop starts: `.error f` is a `log.Fatal` during startup, `.ok st` means
the listener was constructed and `ListenAndServeTLS` is entered with state `st`. -/
def runStartup (env : Env) : Except Fatal ServerState :=
  if env.newVaultClientOk = false then .error ⟨.newVaultClient, "vault client error"⟩
  else
    match bootstrapToken env with
    | .error f => .error f
    | .ok b =>
      if env.getenv "DATABASE_URL" = "" then .error ⟨.dbUrl, "no DATABASE_URL provided"⟩
      else if env.dbOpenOk = false then .error ⟨.dbOpen, "database open error"⟩
      else if env.getenv "S3_BUCKET" = "" then .error ⟨.s3Bucket, "S3_BUCKET not set"⟩
      else if useAWS env && !env.awsSessionOk then
        .error ⟨.awsSession, "unable to initialize AWS"⟩
      else if env.getenv "HUB_DOMAIN" = "" then .error ⟨.hubDomain, "missing HUB_DOMAIN"⟩
      else if useTLSManager env && !env.newManagerOk then
        .error ⟨.newTLSManager, "tls manager construction error"⟩
      else if useAWS env && useTLSManager env && decide (env.getenv "ZONE_ID" = "") then
        .error ⟨.zoneId, "missing ZONE_ID"⟩
      else if useAWS env && useTLSManager env && !env.route53Ok then
        .error ⟨.route53, "route53 setup error"⟩
      else if env.getenv "REGISTER_TOKEN" = "" then
        .error ⟨.registerToken, "missing REGISTER_TOKEN"⟩
      else if env.getenv "OPS_TOKEN" = "" then
        .error ⟨.opsToken, "missing OPS_TOKEN"⟩
      else afterConfig env b

/-- Whether the listener (`hs`) was constructed: every fatal in `runStartup`
happens before the `http.Server` literal at line 290 is built. -/
def listenerCreated : Except Fatal ServerState → Bool
  | .error _ => false
  | .ok _ => true

/-- One tick of the certificate-refresh loop (the closure at lines 253-260):
`cert, key, err := tlsmgr.RefreshFromVault(); if err != nil { log } else {
s.SetHubTLS(cert, key, hubDomain) }`. The TLS material store itself lives in
pkg/control (not in this tree); modelled from the spec: `set(material)` replaces
the whole held value, and is the store's only mutator. -/
def refreshTick (result : Except String (Bytes × Bytes)) (hubDomain : String)
    (store : Option HubMaterial) : Option HubMaterial :=
  match result with
  | .error _ => store
  | .ok (c, k) => some ⟨some c, some k, hubDomain⟩

/-- The store contents after `n` ticks of the refresh loop, given the outcome of
each `RefreshFromVault` call. -/
def refreshLoop (results : Nat → Except String (Bytes × Bytes)) (hubDomain : String)
    (init : Option HubMaterial) : Nat → Option HubMaterial
  | 0 => init
  | n + 1 => refreshTick (results n) hubDomain (refreshLoop results hubDomain init n)

/-- Whether the token-renewal goroutine (lines 98-107) is still looping. -/
inductive LoopState where
  | running
  | stopped
deriving DecidableEq

/-- A call to `vaultClient.Auth().Token().RenewSelf(increment)`. -/
structure RenewRequest where
  increment : Nat
deriving DecidableEq

/-- One iteration of the renewal goroutine's `for` body: wait for the ticker,
call `RenewSelf(86400)`, log on error, loop again. The body never breaks or
returns, and never reads the shared context — `ctxCancelled` and `renewFails`
cannot move the state out of `running`. -/
def renewStep (_ctxCancelled : Bool) (_renewFails : Bool) (s : LoopState) :
    LoopState × Option RenewRequest :=
  match s with
  | .stopped => (.stopped, none)
  | .running => (.running, some ⟨86400⟩)

/-- The renewal loop's state after `n` ticks, given the shared-context flag and
the failure outcome of each `RenewSelf` call. -/
def renewLoopState (ctxCancelled : Bool) (fails : Nat → Bool) : Nat → LoopState
  | 0 => .running
  | n + 1 => (renewStep ctxCancelled (fails n) (renewLoopState ctxCancelled fails n)).1

/-- Ticker `time.NewTicker(time.Hour)`: the time (ns after loop start) of the `n`-th tick. -/
def renewTickTime (n : Nat) : Nat := (n + 1) * hourNs

/-! ## Theorems -/

/-- Claim C2: for every accepted request, the routing decision is a deterministic
function of the negotiated protocol major version and the Content-Type header:
the request goes to the gRPC handler iff the protocol is HTTP/2 and the
Content-Type begins with "application/grpc"; repeated evaluation on identical
inputs yields the same decision. -/
theorem routeIsRPC_iff (p : Nat) (ct : List Char) :
    (routeIsRPC p ct = true ↔ p = 2 ∧ ∃ rest, ct = grpcContentTypePre ++ rest) ∧
    routeIsRPC p ct = routeIsRPC p ct := by
  refine ⟨?_, rfl⟩
  simp only [routeIsRPC, Bool.and_eq_true, beq_iff_eq, decide_eq_true_eq]
  constructor
  · rintro ⟨hp, _hlen, htake⟩
    refine ⟨hp, ct.drop grpcContentTypePre.length, ?_⟩
    conv_lhs => rw [← List.take_append_drop grpcContentTypePre.length ct]
    rw [htake]
  · rintro ⟨hp, rest, rfl⟩
    refine ⟨hp, ?_, List.take_left _ _⟩
    simp [List.length_append]

/-- Witness for C2 at a concrete request. -/
theorem routeIsRPC_iff_witness :
    (routeIsRPC 2 "application/grpc+proto".data = true ↔
      2 = 2 ∧ ∃ rest, "application/grpc+proto".data = grpcContentTypePre ++ rest) ∧
    routeIsRPC 2 "application/grpc+proto".data = routeIsRPC 2 "application/grpc+proto".data :=
  routeIsRPC_iff 2 "application/grpc+proto".data

/-- Claim C10: the cloud-session toggle (USE_AWS) and the TLS-manager toggle
(USE_TLS_MANAGER) are enabled for every value of the environment variable except
the exact string "0"; in particular an unset (empty) variable enables the feature. -/
theorem toggles_enabled_unless_zero (env : Env) :
    (useAWS env = true ↔ env.getenv "USE_AWS" ≠ "0") ∧
    (useTLSManager env = true ↔ env.getenv "USE_TLS_MANAGER" ≠ "0") ∧
    (env.getenv "USE_AWS" = "" → useAWS env = true) ∧
    (env.getenv "USE_TLS_MANAGER" = "" → useTLSManager env = true) := by
  refine ⟨bne_iff_ne, bne_iff_ne, ?_, ?_⟩ <;>
    intro h <;> simp [useAWS, useTLSManager, h]

/-- Claim C7: the renewal loop runs forever, every tick is an hour apart and
requests a 86400-second lease, failures never stop it, and the shared shutdown
context never cancels it. -/
theorem renewLoop_forever_hourly (c : Bool) (fails : Nat → Bool) (n : Nat) :
    renewLoopState c fails n = .running ∧
    (renewStep c (fails n) (renewLoopState c fails n)).2 = some ⟨86400⟩ ∧
    renewTickTime n = (n + 1) * hourNs ∧
    renewLoopState c fails n = renewLoopState (!c) fails n := by
  have hrun : ∀ (c' : Bool) (m : Nat), renewLoopState c' fails m = .running := by
    intro c' m
    induction m with
    | zero => rfl
    | succ k ih => simp [renewLoopState, ih, renewStep]
  refine ⟨hrun c n, ?_, rfl, ?_⟩
  · rw [hrun c n]; rfl
  · rw [hrun c n, hrun (!c) n]

/-- Witness for C7 at a concrete tick count and failure pattern. -/
theorem renewLoop_forever_hourly_witness :
    renewLoopState false (fun _ => true) 3 = .running ∧
    (renewStep false ((fun (_ : Nat) => true) 3)
        (renewLoopState false (fun _ => true) 3)).2 = some ⟨86400⟩ ∧
    renewTickTime 3 = (3 + 1) * hourNs ∧
    renewLoopState false (fun _ => true) 3 = renewLoopState (!false) (fun _ => true) 3 :=
  renewLoop_forever_hourly false (fun _ => true) 3

/-- Claim C3: for every tick of the certificate refresh loop, a failed re-fetch
leaves the TLS material store exactly as it was, and a successful re-fetch makes
it hold exactly the newly fetched certificate and key under the hub domain. -/
theorem refreshLoop_fail_keeps_success_installs
    (results : Nat → Except String (Bytes × Bytes)) (hubDomain : String)
    (init : Option HubMaterial) (n : Nat) :
    (∀ e, results n = .error e →
      refreshLoop results hubDomain init (n + 1) = refreshLoop results hubDomain init n) ∧
    (∀ c k, results n = .ok (c, k) →
      refreshLoop results hubDomain init (n + 1) = some ⟨some c, some k, hubDomain⟩) := by
  constructor
  · intro e he
    simp [refreshLoop, refreshTick, he]
  · intro c k hck
    simp [refreshLoop, refreshTick, hck]

/-- A refresh-outcome trace: the first `RefreshFromVault` call fails, later ones succeed. -/
def refreshResultsEx : Nat → Except String (Bytes × Bytes) :=
  fun n => if n = 0 then .error "vault down" else .ok ([1], [2])

/-- Witness for C3: on the failing tick the store keeps its prior value; on the
succeeding tick it holds the fetched material. -/
theorem refreshLoop_fail_keeps_success_installs_witness :
    refreshLoop refreshResultsEx "hub.example.com" (some ⟨some [0], some [0], "hub.example.com"⟩) 1
      = refreshLoop refreshResultsEx "hub.example.com"
          (some ⟨some [0], some [0], "hub.example.com"⟩) 0 ∧
    refreshLoop refreshResultsEx "hub.example.com" (some ⟨some [0], some [0], "hub.example.com"⟩) 2
      = some ⟨some [1], some [2], "hub.example.com"⟩ :=
  ⟨(refreshLoop_fail_keeps_success_installs refreshResultsEx "hub.example.com"
      (some ⟨some [0], some [0], "hub.example.com"⟩) 0).1 "vault down" rfl,
   (refreshLoop_fail_keeps_success_installs refreshResultsEx "hub.example.com"
      (some ⟨some [0], some [0], "hub.example.com"⟩) 1).2 [1] [2] rfl⟩

/-- Counterexample to claim C8 as stated: `snakeOilCert` computes `notAfter` from
its first `time.Now()` read but fills the template's `NotBefore` from a second
read, so when the clock advances by even one nanosecond between the two reads the
validity window is no longer exactly the 5-year constant. -/
theorem snakeOilCert_window_not_exact :
    ¬ ((snakeOilCert "127.0.0.1:24402" 0 0 1).notAfter
        = (snakeOilCert "127.0.0.1:24402" 0 0 1).notBefore + fiveYearsNs) := by
  decide

/-- Claim C8 (amended): for every common name, the generated certificate's
`NotAfter` is the first clock read plus the 5-year window while `NotBefore` is
the second, later clock read, so the validity window is exactly 5 years minus
the time elapsed between the two reads (strictly positive whenever that elapsed
time is under 5 years, and exactly 5 years when it is zero); the serial number
is drawn from `[0, 2^128)`, the key is 4096-bit RSA, and key usage is restricted
to digital signature. -/
theorem snakeOilCert_amended (cn : String) (entropy now1 now2 : Nat)
    (hmono : now1 ≤ now2) (hlt : now2 - now1 < fiveYearsNs) :
    (snakeOilCert cn entropy now1 now2).notAfter = now1 + fiveYearsNs ∧
    (snakeOilCert cn entropy now1 now2).notBefore = now2 ∧
    (snakeOilCert cn entropy now1 now2).notBefore
        < (snakeOilCert cn entropy now1 now2).notAfter ∧
    (snakeOilCert cn entropy now1 now2).notAfter
        - (snakeOilCert cn entropy now1 now2).notBefore
      = fiveYearsNs - (now2 - now1) ∧
    (snakeOilCert cn entropy now1 now2).serialNumber < 2 ^ 128 ∧
    (snakeOilCert cn entropy now1 now2).keyBits = 4096 ∧
    (snakeOilCert cn entropy now1 now2).keyUsage = x509KeyUsageDigitalSignature ∧
    (snakeOilCert cn entropy now1 now2).commonName = cn := by
  refine ⟨rfl, rfl, ?_, ?_, ?_, rfl, rfl, rfl⟩
  · show now2 < now1 + fiveYearsNs
    omega
  · show (now1 + fiveYearsNs) - now2 = fiveYearsNs - (now2 - now1)
    omega
  · show entropy % 2 ^ 128 < 2 ^ 128
    exact Nat.mod_lt _ (by positivity)

/-- Witness for the amended C8 at a concrete input (clock not advancing). -/
theorem snakeOilCert_amended_witness :
    (snakeOilCert "127.0.0.1:24402" 5 100 100).notAfter = 100 + fiveYearsNs ∧
    (snakeOilCert "127.0.0.1:24402" 5 100 100).notBefore = 100 ∧
    (snakeOilCert "127.0.0.1:24402" 5 100 100).notBefore
        < (snakeOilCert "127.0.0.1:24402" 5 100 100).notAfter ∧
    (snakeOilCert "127.0.0.1:24402" 5 100 100).notAfter
        - (snakeOilCert "127.0.0.1:24402" 5 100 100).notBefore
      = fiveYearsNs - (100 - 100) ∧
    (snakeOilCert "127.0.0.1:24402" 5 100 100).serialNumber < 2 ^ 128 ∧
    (snakeOilCert "127.0.0.1:24402" 5 100 100).keyBits = 4096 ∧
    (snakeOilCert "127.0.0.1:24402" 5 100 100).keyUsage = x509KeyUsageDigitalSignature ∧
    (snakeOilCert "127.0.0.1:24402" 5 100 100).commonName = "127.0.0.1:24402" :=
  snakeOilCert_amended "127.0.0.1:24402" 5 100 100 (Nat.le_refl 100) (by decide)

/-- Reduction lemma: with the TLS manager disabled (`USE_TLS_MANAGER=0`) and
every other startup phase succeeding, `Run` reaches the accept loop with the
listener built from the generated self-signed certificate. -/
theorem runStartup_selfSigned_eq (env : Env)
    (h0 : env.newVaultClientOk = true) (b : BootstrapResult)
    (hb : bootstrapToken env = .ok b)
    (h1 : env.getenv "DATABASE_URL" ≠ "") (h2 : env.dbOpenOk = true)
    (h3 : env.getenv "S3_BUCKET" ≠ "") (h4 : env.awsSessionOk = true)
    (h5 : env.getenv "HUB_DOMAIN" ≠ "")
    (h6 : env.getenv "USE_TLS_MANAGER" = "0")
    (h7 : env.getenv "REGISTER_TOKEN" ≠ "") (h8 : env.getenv "OPS_TOKEN" ≠ "")
    (h9 : env.lockManagerOk = true) (h10 : env.newServerOk = true) :
    runStartup env = .ok
      { certSource :=
          .selfSigned (snakeOilCert "127.0.0.1:24402" env.serialEntropy env.now1 env.now2)
        addr := ":" ++ portOf env
        idleTimeoutNs := 2 * minuteNs
        store := none
        refreshLoopStarted := false
        renewLoopStarted := b.renewStarted
        vaultToken := b.token
        handlers := registerRenewHandler ["cleanup-activity-log"] } := by
  have hT : useTLSManager env = false := by
    simp [useTLSManager, h6]
  simp [runStartup, h0, hb, h1, h2, h3, h4, h5, h7, h8, hT,
    afterConfig, fetchHubMaterial, tlsSetup, h9, h10]

/-- Claim C1: when no managed-certificate system is configured (TLS manager
disabled) and the remaining startup phases succeed, startup completes using the
self-signed fallback: `Run` reaches the accept loop with the listener built from
the generated self-signed certificate and no fatal error. -/
theorem runStartup_selfSigned_serves (env : Env)
    (h0 : env.newVaultClientOk = true) (b : BootstrapResult)
    (hb : bootstrapToken env = .ok b)
    (h1 : env.getenv "DATABASE_URL" ≠ "") (h2 : env.dbOpenOk = true)
    (h3 : env.getenv "S3_BUCKET" ≠ "") (h4 : env.awsSessionOk = true)
    (h5 : env.getenv "HUB_DOMAIN" ≠ "")
    (h6 : env.getenv "USE_TLS_MANAGER" = "0")
    (h7 : env.getenv "REGISTER_TOKEN" ≠ "") (h8 : env.getenv "OPS_TOKEN" ≠ "")
    (h9 : env.lockManagerOk = true) (h10 : env.newServerOk = true) :
    ∃ st, runStartup env = .ok st ∧
      st.certSource =
        .selfSigned (snakeOilCert "127.0.0.1:24402" env.serialEntropy env.now1 env.now2) :=
  ⟨_, runStartup_selfSigned_eq env h0 b hb h1 h2 h3 h4 h5 h6 h7 h8 h9 h10, rfl⟩

/-- Claim C9: whenever the self-signed fallback path is taken, the generated
certificate's common name is the fixed string "127.0.0.1:24402", while the
listener binds whatever port the PORT variable selects (here unconstrained). -/
theorem runStartup_selfSigned_commonName (env : Env)
    (h0 : env.newVaultClientOk = true) (b : BootstrapResult)
    (hb : bootstrapToken env = .ok b)
    (h1 : env.getenv "DATABASE_URL" ≠ "") (h2 : env.dbOpenOk = true)
    (h3 : env.getenv "S3_BUCKET" ≠ "") (h4 : env.awsSessionOk = true)
    (h5 : env.getenv "HUB_DOMAIN" ≠ "")
    (h6 : env.getenv "USE_TLS_MANAGER" = "0")
    (h7 : env.getenv "REGISTER_TOKEN" ≠ "") (h8 : env.getenv "OPS_TOKEN" ≠ "")
    (h9 : env.lockManagerOk = true) (h10 : env.newServerOk = true) :
    ∃ st, runStartup env = .ok st ∧
      (∃ c, st.certSource = .selfSigned c ∧ c.commonName = "127.0.0.1:24402") ∧
      st.addr = ":" ++ portOf env :=
  ⟨_, runStartup_selfSigned_eq env h0 b hb h1 h2 h3 h4 h5 h6 h7 h8 h9 h10,
    ⟨_, rfl, rfl⟩, rfl⟩

/-- Environment-variable table for the self-signed-fallback witness environment:
TLS manager and AWS disabled, every required variable set, PORT set to a
non-default value. -/
def envGetSelfSigned : String → String := fun k =>
  if k = "DATABASE_URL" then "postgres://localhost/hzn"
  else if k = "S3_BUCKET" then "hzn-bucket"
  else if k = "USE_AWS" then "0"
  else if k = "HUB_DOMAIN" then "hub.example.com"
  else if k = "USE_TLS_MANAGER" then "0"
  else if k = "REGISTER_TOKEN" then "reg"
  else if k = "OPS_TOKEN" then "ops"
  else if k = "PORT" then "8443"
  else ""

/-- A healthy environment with an ambient vault token and the TLS manager disabled. -/
def envSelfSigned : Env :=
  { getenv := envGetSelfSigned
    newVaultClientOk := true
    ambientToken := "ambient-token"
    tokenFileOpen := false
    tokenFileRead := .ok []
    loginResult := .ok none
    dbOpenOk := true
    awsSessionOk := true
    newManagerOk := true
    route53Ok := true
    hubMaterial := .ok ([], [])
    lockManagerOk := true
    newServerOk := true
    certificateResult := .ok ⟨[]⟩
    serialEntropy := 7
    now1 := 0
    now2 := 0 }

/-- Witness for C1 at the concrete environment. -/
theorem runStartup_selfSigned_serves_witness :
    ∃ st, runStartup envSelfSigned = .ok st ∧
      st.certSource = .selfSigned
        (snakeOilCert "127.0.0.1:24402" envSelfSigned.serialEntropy
          envSelfSigned.now1 envSelfSigned.now2) :=
  runStartup_selfSigned_serves envSelfSigned rfl ⟨"ambient-token", false, false⟩ rfl
    (by decide) rfl (by decide) rfl (by decide) (by decide) (by decide) (by decide) rfl rfl

/-- Witness for C9 at the concrete environment (PORT is "8443", yet the common
name stays "127.0.0.1:24402"). -/
theorem runStartup_selfSigned_commonName_witness :
    ∃ st, runStartup envSelfSigned = .ok st ∧
      (∃ c, st.certSource = .selfSigned c ∧ c.commonName = "127.0.0.1:24402") ∧
      st.addr = ":" ++ portOf envSelfSigned :=
  runStartup_selfSigned_commonName envSelfSigned rfl ⟨"ambient-token", false, false⟩ rfl
    (by decide) rfl (by decide) rfl (by decide) (by decide) (by decide) (by decide) rfl rfl

/-- Claim C4: if no ambient token is set and the workload-identity token file
exists (opens) but cannot be read, startup terminates with a fatal error. -/
theorem runStartup_unreadableToken_fatal (env : Env)
    (h0 : env.newVaultClientOk = true) (h1 : env.ambientToken = "")
    (h2 : env.tokenFileOpen = true) (e : String)
    (h3 : env.tokenFileRead = .error e) :
    runStartup env = .error ⟨.readToken, e⟩ := by
  have hb : bootstrapToken env = .error ⟨.readToken, e⟩ := by
    simp [bootstrapToken, h1, h2, h3]
  simp [runStartup, h0, hb]

/-- Environment for the C4 witness: the identity file opens but reading fails. -/
def envUnreadable : Env :=
  { envSelfSigned with
      ambientToken := ""
      tokenFileOpen := true
      tokenFileRead := .error "permission denied" }

/-- Witness for C4 at the concrete environment. -/
theorem runStartup_unreadableToken_fatal_witness :
    runStartup envUnreadable = .error ⟨.readToken, "permission denied"⟩ :=
  runStartup_unreadableToken_fatal envUnreadable rfl rfl rfl "permission denied" rfl

/-- Claim C6: if the identity token file is present and readable but the vault
login returns an empty secret, startup terminates with the fatal message
"unable to login to get token", and no listener is ever created. -/
theorem runStartup_emptyLogin_fatal (env : Env)
    (h0 : env.newVaultClientOk = true) (h1 : env.ambientToken = "")
    (h2 : env.tokenFileOpen = true) (d : Bytes)
    (h3 : env.tokenFileRead = .ok d) (h4 : env.loginResult = .ok none) :
    runStartup env = .error ⟨.loginEmpty, "unable to login to get token"⟩ ∧
    listenerCreated (runStartup env) = false := by
  have hb : bootstrapToken env = .error ⟨.loginEmpty, "unable to login to get token"⟩ := by
    simp [bootstrapToken, h1, h2, h3, h4]
  have hr : runStartup env = .error ⟨.loginEmpty, "unable to login to get token"⟩ := by
    simp [runStartup, h0, hb]
  exact ⟨hr, by rw [hr]; rfl⟩

/-- Environment for the C6 witness: the identity file reads fine but the login
exchange returns no secret. -/
def envEmptyLogin : Env :=
  { envSelfSigned with
      ambientToken := ""
      tokenFileOpen := true
      tokenFileRead := .ok [101, 121, 74]
      loginResult := .ok none }

/-- Witness for C6 at the concrete environment. -/
theorem runStartup_emptyLogin_fatal_witness :
    runStartup envEmptyLogin = .error ⟨.loginEmpty, "unable to login to get token"⟩ ∧
    listenerCreated (runStartup envEmptyLogin) = false :=
  runStartup_emptyLogin_fatal envEmptyLogin rfl rfl rfl [101, 121, 74] rfl rfl

/-- All startup phases between the credential bootstrap and the certificate
fetch succeed: a healthy configuration. -/
def preCertPhasesOk (env : Env) : Prop :=
  env.newVaultClientOk = true ∧ env.getenv "DATABASE_URL" ≠ "" ∧ env.dbOpenOk = true ∧
  env.getenv "S3_BUCKET" ≠ "" ∧ env.awsSessionOk = true ∧ env.getenv "HUB_DOMAIN" ≠ "" ∧
  env.newManagerOk = true ∧ env.getenv "ZONE_ID" ≠ "" ∧ env.route53Ok = true ∧
  env.getenv "REGISTER_TOKEN" ≠ "" ∧ env.getenv "OPS_TOKEN" ≠ ""

/-- Reduction lemma: under a healthy configuration, `Run` passes every
configuration check and continues with the post-configuration phases. -/
theorem runStartup_eq_afterConfig (env : Env) (b : BootstrapResult)
    (hb : bootstrapToken env = .ok b) (hp : preCertPhasesOk env) :
    runStartup env = afterConfig env b := by
  obtain ⟨p0, p1, p2, p3, p4, p5, p6, p7, p8, p9, p10⟩ := hp
  simp [runStartup, hb, p0, p1, p2, p3, p4, p5, p6, p7, p8, p9, p10]

/-- Inversion lemma: any successful startup carries the bootstrap credential,
renewal-loop flag, listen address and idle timeout into the final state. -/
theorem afterConfig_ok_fields (env : Env) (b : BootstrapResult) (st : ServerState)
    (h : afterConfig env b = .ok st) :
    st.vaultToken = b.token ∧ st.renewLoopStarted = b.renewStarted ∧
    st.addr = ":" ++ portOf env ∧ st.idleTimeoutNs = 2 * minuteNs := by
  unfold afterConfig at h
  split at h
  · exact Except.noConfusion h
  · split at h
    · exact Except.noConfusion h
    · split at h
      · exact Except.noConfusion h
      · split at h
        · exact Except.noConfusion h
        · injection h with h'
          subst h'
          exact ⟨rfl, rfl, rfl, rfl⟩

/-- Claim C5: with no ambient token and no identity file present, the login
exchange is skipped (not attempted, renewal loop not started, credential left as
it was), no fatal error arises from the bootstrap, and under a healthy
configuration startup proceeds to the certificate fetch: a failing fetch is the
outcome of the run, and any successful startup carries the empty credential. -/
theorem runStartup_noTokenFile_skipsLogin (env : Env)
    (h1 : env.ambientToken = "") (h2 : env.tokenFileOpen = false)
    (hp : preCertPhasesOk env) :
    bootstrapToken env = .ok ⟨"", false, false⟩ ∧
    (∀ e, useTLSManager env = true → env.hubMaterial = .error e →
      runStartup env = .error ⟨.hubMaterial, e⟩) ∧
    (∀ st, runStartup env = .ok st → st.vaultToken = "" ∧ st.renewLoopStarted = false) := by
  have hb : bootstrapToken env = .ok ⟨"", false, false⟩ := by
    simp [bootstrapToken, h1, h2]
  have hred : runStartup env = afterConfig env ⟨"", false, false⟩ :=
    runStartup_eq_afterConfig env ⟨"", false, false⟩ hb hp
  refine ⟨hb, ?_, ?_⟩
  · intro e ht he
    rw [hred]
    simp [afterConfig, fetchHubMaterial, ht, he]
  · intro st hst
    rw [hred] at hst
    have hfields := afterConfig_ok_fields env ⟨"", false, false⟩ st hst
    exact ⟨hfields.1, hfields.2.1⟩

/-- Environment for the C5 witness: no ambient token, no identity file, healthy
configuration with the TLS manager enabled and the vault fetch failing once. -/
def envNoTokenFile : Env :=
  { envSelfSigned with
      getenv := fun k =>
        if k = "USE_TLS_MANAGER" then "" else if k = "ZONE_ID" then "Z123"
        else envGetSelfSigned k
      ambientToken := ""
      tokenFileOpen := false
      hubMaterial := .error "vault unreachable" }

/-- Witness for C5 at the concrete environment. -/
theorem runStartup_noTokenFile_skipsLogin_witness :
    bootstrapToken envNoTokenFile = .ok ⟨"", false, false⟩ ∧
    (∀ e, useTLSManager envNoTokenFile = true → envNoTokenFile.hubMaterial = .error e →
      runStartup envNoTokenFile = .error ⟨.hubMaterial, e⟩) ∧
    (∀ st, runStartup envNoTokenFile = .ok st →
      st.vaultToken = "" ∧ st.renewLoopStarted = false) :=
  runStartup_noTokenFile_skipsLogin envNoTokenFile rfl rfl
    ⟨rfl, by decide, rfl, by decide, rfl, by decide, rfl, by decide, rfl, by decide, by decide⟩

/-- An environment whose variables are all unset. -/
def envAllUnset : Env := { envSelfSigned with getenv := fun _ => "" }

/-- Witness for C10: unset variables enable both features. -/
theorem toggles_enabled_unless_zero_witness :
    useAWS envAllUnset = true ∧ useTLSManager envAllUnset = true :=
  ⟨(toggles_enabled_unless_zero envAllUnset).2.2.1 rfl,
   (toggles_enabled_unless_zero envAllUnset).2.2.2 rfl⟩

end Horizon
